import Mathlib

/-!
Verification of the rendering core of the `spotify_converter` tool
(`src/main.rs`): a shallow embedding of the filename sanitizer, the
Markdown and HTML escaping helpers, the per-playlist renderers and the
index renderers, together with theorems settling the specification's
claims about them.

Strings are embedded as `List Char` (abbreviated `Str`); Rust's
`str::replace` with a `char` pattern is the character-wise `replaceChar`,
`str::trim` is `rustTrim` (dropping Unicode `White_Space` characters from
both ends), and `format!("{}", n)` on integers is `natStr` / `intStr` via
`Nat.repr` / `Int.repr`.  A renderer built from `push_str` calls and
`format!` interpolations becomes the corresponding `++`-chain; consecutive
`push_str` calls whose arguments are string literals are merged into one
literal with the same characters.
-/

/-- Strings of the embedding: a Rust `String` as its list of characters. -/
abbrev Str := List Char

/-- Shorthand turning a Lean string literal into a `Str`. -/
def str (s : String) : Str := s.data

/-- The `Track` struct of `src/main.rs` (all four fields are rendered). -/
structure Track where
  track_name : Str
  artist_name : Str
  album_name : Str
  track_uri : Str
deriving DecidableEq

/-- The `Item` struct of `src/main.rs`.  The `episode`, `audiobook` and
`local_track` fields are opaque `serde_json::Value`s that no renderer ever
reads, so they are not part of the embedding. -/
structure Item where
  track : Track
  added_date : Str
deriving DecidableEq

/-- The `Playlist` struct of `src/main.rs`.  `collaborators` and
`description` are opaque values no renderer reads and are omitted;
`number_of_followers` is an `i64`, embedded as `Int`. -/
structure Playlist where
  name : Str
  last_modified_date : Str
  items : List Item
  number_of_followers : Int
deriving DecidableEq

/-- Rust's `format!("{}", n)` for a `usize`: the decimal rendering. -/
def natStr (n : Nat) : Str := (Nat.repr n).data

/-- Rust's `format!("{}", i)` for an `i64`: decimal, `-`-prefixed when
negative. -/
def intStr (i : Int) : Str := (Int.repr i).data

/-- Rust's `str::replace` with a `char` pattern: every occurrence of the
character `p` is replaced by the string `r`, character by character. -/
def replaceChar (p : Char) (r : Str) : Str → Str
  | [] => []
  | c :: cs => (if c = p then r else [c]) ++ replaceChar p r cs

/-- `escape_html` of `src/main.rs`: the five `replace` calls in source
order, `&` first, then `<`, `>`, `"`, `'`. -/
def escape_html (text : Str) : Str :=
  replaceChar '\'' (str "&#39;")
    (replaceChar '"' (str "&quot;")
      (replaceChar '>' (str "&gt;")
        (replaceChar '<' (str "&lt;")
          (replaceChar '&' (str "&amp;") text))))

/-- `escape_markdown` of `src/main.rs`: the three `replace` calls in
source order, `|` first, then `[`, then `]`. -/
def escape_markdown (text : Str) : Str :=
  replaceChar ']' (str "\\]")
    (replaceChar '[' (str "\\[")
      (replaceChar '|' (str "\\|") text))

/-- The `match` arm inside `sanitize_filename`: the nine
filesystem-reserved characters become `-`, every other character is kept. -/
def sanitizeChar (c : Char) : Char :=
  if c = '/' ∨ c = '\\' ∨ c = ':' ∨ c = '*' ∨ c = '?' ∨ c = '"' ∨ c = '<' ∨ c = '>' ∨ c = '|'
  then '-' else c

/-- Rust's `char::is_whitespace`: the Unicode `White_Space` property. -/
def rustIsWhitespace (c : Char) : Bool :=
  (9 ≤ c.toNat ∧ c.toNat ≤ 13) ∨ c.toNat = 32 ∨ c.toNat = 0x85 ∨ c.toNat = 0xA0 ∨
    c.toNat = 0x1680 ∨ (0x2000 ≤ c.toNat ∧ c.toNat ≤ 0x200A) ∨ c.toNat = 0x2028 ∨
    c.toNat = 0x2029 ∨ c.toNat = 0x202F ∨ c.toNat = 0x205F ∨ c.toNat = 0x3000

/-- Rust's `str::trim`: whitespace dropped from the front, then (through
`reverse`) from the back. -/
def rustTrim (s : Str) : Str :=
  ((s.dropWhile rustIsWhitespace).reverse.dropWhile rustIsWhitespace).reverse

/-- `sanitize_filename` of `src/main.rs`: map `sanitizeChar` over the
name, then trim. -/
def sanitize_filename (name : Str) : Str :=
  rustTrim (name.map sanitizeChar)

/-- `get_common_styles` of `src/main.rs`: the shared raw-string style
block, verbatim. -/
def get_common_styles : Str :=
  str "\n        body \x7b\n            font-family: -apple-system, BlinkMacSystemFont, 'Segoe UI', Roboto, 'Helvetica Neue', Arial, sans-serif;\n            max-width: 1200px;\n            margin: 0 auto;\n            padding: 20px;\n            background-color: #f5f5f5;\n        \x7d\n        .container \x7b\n            background-color: white;\n            border-radius: 8px;\n            padding: 30px;\n            box-shadow: 0 2px 4px rgba(0,0,0,0.1);\n        \x7d\n        h1 \x7b\n            color: #1db954;\n            margin-bottom: 20px;\n        \x7d\n        a \x7b\n            color: #1db954;\n            text-decoration: none;\n        \x7d\n        a:hover \x7b\n            text-decoration: underline;\n        \x7d\n        .back-to-top \x7b\n            position: fixed;\n            bottom: 20px;\n            right: 20px;\n            background-color: #1db954;\n            color: white;\n            padding: 12px 20px;\n            border-radius: 25px;\n            text-decoration: none;\n            box-shadow: 0 2px 8px rgba(0,0,0,0.2);\n            transition: background-color 0.3s;\n        \x7d\n        .back-to-top:hover \x7b\n            background-color: #1ed760;\n            text-decoration: none;\n        \x7d\n        .nav-link \x7b\n            display: inline-block;\n            margin-bottom: 20px;\n            padding: 8px 16px;\n            background-color: #f0f0f0;\n            border-radius: 4px;\n        \x7d\n    "

/-- One row of `generate_markdown`'s track table: the `format!` at
src/main.rs:160, with the raw `track_uri` as the link target and the
`added_date` inserted verbatim. -/
def mdTrackRow (idx : Nat) (item : Item) : Str :=
  str "| " ++ natStr idx ++ str " | [" ++ escape_markdown item.track.track_name
    ++ str "](" ++ item.track.track_uri ++ str ") | " ++ escape_markdown item.track.artist_name
    ++ str " | " ++ escape_markdown item.track.album_name ++ str " | " ++ item.added_date
    ++ str " |\n"

/-- The `for (idx, item) in playlist.items.iter().enumerate()` loop of
`generate_markdown`: the item at 0-based position `k + i` of the original
list is rendered with row number `k + i + 1`. -/
def mdTrackRows (k : Nat) : List Item → Str
  | [] => []
  | item :: rest => mdTrackRow (k + 1) item ++ mdTrackRows (k + 1) rest

/-- `generate_markdown` up to (not including) the conditional track
table: title, index link and the three metadata lines. -/
def mdPlaylistHead (playlist : Playlist) : Str :=
  str "# " ++ playlist.name ++ str "\n\n"
    ++ str "[← Back to Index](index.md)\n\n"
    ++ str "## Playlist Information\n\n"
    ++ str "- **Last Modified:** " ++ playlist.last_modified_date ++ str "\n"
    ++ str "- **Followers:** " ++ intStr playlist.number_of_followers ++ str "\n"
    ++ str "- **Total Tracks:** " ++ natStr playlist.items.length ++ str "\n\n"

/-- The `if !playlist.items.is_empty()` block of `generate_markdown`:
table heading plus one row per item, nothing when there are no items. -/
def mdTracksSection (items : List Item) : Str :=
  if items.isEmpty then []
  else
    str "## Tracks\n\n"
      ++ str "| # | Track Name | Artist | Album | Added Date |\n"
      ++ str "|---|------------|--------|-------|------------|\n"
      ++ mdTrackRows 0 items

/-- The unconditional tail of `generate_markdown`: back-to-top plus the
second index link. -/
def mdPlaylistFoot : Str :=
  str "\n[↑ Back to Top](#)\n\n" ++ str "[← Back to Index](index.md)\n"

/-- `generate_markdown` of `src/main.rs`. -/
def generate_markdown (playlist : Playlist) : Str :=
  mdPlaylistHead playlist ++ mdTracksSection playlist.items ++ mdPlaylistFoot

/-- The playlist-page style lines `generate_html` adds after
`get_common_styles` (src/main.rs:197-227), verbatim. -/
def htmlPlaylistStyle : Str :=
  str "        .metadata \x7b\n            background-color: #f9f9f9;\n            padding: 15px;\n            border-radius: 5px;\n            margin-bottom: 30px;\n        \x7d\n        .metadata p \x7b\n            margin: 5px 0;\n        \x7d\n        table \x7b\n            width: 100%;\n            border-collapse: collapse;\n        \x7d\n        th \x7b\n            background-color: #1db954;\n            color: white;\n            padding: 12px;\n            text-align: left;\n        \x7d\n        td \x7b\n            padding: 12px;\n            border-bottom: 1px solid #ddd;\n        \x7d\n        tr:hover \x7b\n            background-color: #f5f5f5;\n        \x7d\n        .track-number \x7b\n            color: #999;\n            text-align: center;\n            width: 50px;\n        \x7d\n"

/-- `generate_html` up to (not including) the conditional track table:
document head, shared styles, navigation link, title and metadata panel. -/
def htmlPlaylistHead (playlist : Playlist) : Str :=
  str "<!DOCTYPE html>\n<html lang=\"en\">\n<head>\n"
    ++ str "    <meta charset=\"UTF-8\">\n"
    ++ str "    <meta name=\"viewport\" content=\"width=device-width, initial-scale=1.0\">\n"
    ++ str "    <title>" ++ escape_html playlist.name ++ str "</title>\n"
    ++ str "    <style>\n" ++ get_common_styles ++ htmlPlaylistStyle ++ str "    </style>\n"
    ++ str "</head>\n<body>\n"
    ++ str "    <div class=\"container\">\n"
    ++ str "        <a href=\"index.html\" class=\"nav-link\">← Back to Index</a>\n"
    ++ str "        <h1>" ++ escape_html playlist.name ++ str "</h1>\n"
    ++ str "        <div class=\"metadata\">\n"
    ++ str "            <p><strong>Last Modified:</strong> " ++ escape_html playlist.last_modified_date ++ str "</p>\n"
    ++ str "            <p><strong>Followers:</strong> " ++ intStr playlist.number_of_followers ++ str "</p>\n"
    ++ str "            <p><strong>Total Tracks:</strong> " ++ natStr playlist.items.length ++ str "</p>\n"
    ++ str "        </div>\n"

/-- One `<tr>` of `generate_html`'s track table (src/main.rs:272-296):
every user-supplied field, the `track_uri` included, goes through
`escape_html`. -/
def htmlTrackRow (idx : Nat) (item : Item) : Str :=
  str "                <tr>\n"
    ++ str "                    <td class=\"track-number\">" ++ natStr idx ++ str "</td>\n"
    ++ str "                    <td><a href=\"" ++ escape_html item.track.track_uri ++ str "\">"
      ++ escape_html item.track.track_name ++ str "</a></td>\n"
    ++ str "                    <td>" ++ escape_html item.track.artist_name ++ str "</td>\n"
    ++ str "                    <td>" ++ escape_html item.track.album_name ++ str "</td>\n"
    ++ str "                    <td>" ++ escape_html item.added_date ++ str "</td>\n"
    ++ str "                </tr>\n"

/-- The `enumerate` loop of `generate_html`, as `mdTrackRows`. -/
def htmlTrackRows (k : Nat) : List Item → Str
  | [] => []
  | item :: rest => htmlTrackRow (k + 1) item ++ htmlTrackRows (k + 1) rest

/-- The table heading `generate_html` emits before the rows. -/
def htmlTableOpen : Str :=
  str "        <h2>Tracks</h2>\n"
    ++ str "        <table>\n"
    ++ str "            <thead>\n"
    ++ str "                <tr>\n"
    ++ str "                    <th class=\"track-number\">#</th>\n"
    ++ str "                    <th>Track Name</th>\n"
    ++ str "                    <th>Artist</th>\n"
    ++ str "                    <th>Album</th>\n"
    ++ str "                    <th>Added Date</th>\n"
    ++ str "                </tr>\n"
    ++ str "            </thead>\n"
    ++ str "            <tbody>\n"

/-- The closing tags after the rows. -/
def htmlTableClose : Str :=
  str "            </tbody>\n" ++ str "        </table>\n"

/-- The `if !playlist.items.is_empty()` block of `generate_html`. -/
def htmlTracksSection (items : List Item) : Str :=
  if items.isEmpty then [] else htmlTableOpen ++ htmlTrackRows 0 items ++ htmlTableClose

/-- The unconditional tail of `generate_html`: container close, floating
back-to-top anchor, document close — and no second index link. -/
def htmlPlaylistFoot : Str :=
  str "    </div>\n"
    ++ str "    <a href=\"#\" class=\"back-to-top\">↑ Top</a>\n"
    ++ str "</body>\n</html>"

/-- `generate_html` of `src/main.rs`. -/
def generate_html (playlist : Playlist) : Str :=
  htmlPlaylistHead playlist ++ htmlTracksSection playlist.items ++ htmlPlaylistFoot

/-- The `total_tracks` sum both index renderers compute:
`playlists.iter().map(|p| p.items.len()).sum()`. -/
def total_tracks (playlists : List Playlist) : Nat :=
  (playlists.map fun p => p.items.length).sum

/-- One bullet of `generate_index_markdown` (src/main.rs:325-331): name
and filename are inserted raw, with no escaping of any kind. -/
def mdIndexEntry (p : Playlist) (filename : Str) : Str :=
  str "- [**" ++ p.name ++ str "**](" ++ filename ++ str ") - "
    ++ natStr p.items.length ++ str " tracks, " ++ intStr p.number_of_followers
    ++ str " followers\n"

/-- The `playlists.iter().zip(filenames.iter())` loop of
`generate_index_markdown`: one rendered bullet per zipped pair. -/
def mdIndexEntries (playlists : List Playlist) (filenames : List Str) : List Str :=
  (playlists.zip filenames).map fun pf => mdIndexEntry pf.1 pf.2

/-- `generate_index_markdown` of `src/main.rs`. -/
def generate_index_markdown (playlists : List Playlist) (filenames : List Str) : Str :=
  str "# My Spotify Playlists\n\n"
    ++ str "**Total Playlists:** " ++ natStr playlists.length ++ str "\n\n"
    ++ str "**Total Tracks:** " ++ natStr (total_tracks playlists) ++ str "\n\n"
    ++ str "## Playlists\n\n"
    ++ (mdIndexEntries playlists filenames).flatten

/-- The index-page style lines `generate_index_html` adds after
`get_common_styles` (src/main.rs:348-396), verbatim. -/
def htmlIndexStyle : Str :=
  str "        .stats \x7b\n            display: flex;\n            gap: 30px;\n            margin-bottom: 30px;\n        \x7d\n        .stat-card \x7b\n            background-color: #f9f9f9;\n            padding: 20px;\n            border-radius: 8px;\n            flex: 1;\n        \x7d\n        .stat-card h3 \x7b\n            margin: 0 0 10px 0;\n            color: #666;\n            font-size: 14px;\n            text-transform: uppercase;\n        \x7d\n        .stat-card p \x7b\n            margin: 0;\n            font-size: 32px;\n            font-weight: bold;\n            color: #1db954;\n        \x7d\n        .playlist-grid \x7b\n            display: grid;\n            grid-template-columns: repeat(auto-fill, minmax(300px, 1fr));\n            gap: 20px;\n        \x7d\n        .playlist-card \x7b\n            background-color: #f9f9f9;\n            padding: 20px;\n            border-radius: 8px;\n            transition: transform 0.2s, box-shadow 0.2s;\n        \x7d\n        .playlist-card:hover \x7b\n            transform: translateY(-2px);\n            box-shadow: 0 4px 12px rgba(0,0,0,0.15);\n        \x7d\n        .playlist-card h3 \x7b\n            margin: 0 0 10px 0;\n            color: #333;\n        \x7d\n        .playlist-card h3 a \x7b\n            color: #333;\n        \x7d\n        .playlist-meta \x7b\n            color: #666;\n            font-size: 14px;\n        \x7d\n"

/-- One playlist card of `generate_index_html` (src/main.rs:420-438):
`href` is the escaped filename, the text the escaped playlist name. -/
def htmlIndexEntry (p : Playlist) (filename : Str) : Str :=
  str "            <div class=\"playlist-card\">\n"
    ++ str "                <h3><a href=\"" ++ escape_html filename ++ str "\">"
      ++ escape_html p.name ++ str "</a></h3>\n"
    ++ str "                <div class=\"playlist-meta\">\n"
    ++ str "                    " ++ natStr p.items.length ++ str " tracks<br>\n"
    ++ str "                    " ++ intStr p.number_of_followers ++ str " followers\n"
    ++ str "                </div>\n"
    ++ str "            </div>\n"

/-- The zip loop of `generate_index_html`: one card per zipped pair. -/
def htmlIndexEntries (playlists : List Playlist) (filenames : List Str) : List Str :=
  (playlists.zip filenames).map fun pf => htmlIndexEntry pf.1 pf.2

/-- `generate_index_html` of `src/main.rs`. -/
def generate_index_html (playlists : List Playlist) (filenames : List Str) : Str :=
  str "<!DOCTYPE html>\n<html lang=\"en\">\n<head>\n"
    ++ str "    <meta charset=\"UTF-8\">\n"
    ++ str "    <meta name=\"viewport\" content=\"width=device-width, initial-scale=1.0\">\n"
    ++ str "    <title>My Spotify Playlists</title>\n"
    ++ str "    <style>\n" ++ get_common_styles ++ htmlIndexStyle ++ str "    </style>\n"
    ++ str "</head>\n<body>\n"
    ++ str "    <div class=\"container\">\n"
    ++ str "        <h1>My Spotify Playlists</h1>\n"
    ++ str "        <div class=\"stats\">\n"
    ++ str "            <div class=\"stat-card\">\n"
    ++ str "                <h3>Total Playlists</h3>\n"
    ++ str "                <p>" ++ natStr playlists.length ++ str "</p>\n"
    ++ str "            </div>\n"
    ++ str "            <div class=\"stat-card\">\n"
    ++ str "                <h3>Total Tracks</h3>\n"
    ++ str "                <p>" ++ natStr (total_tracks playlists) ++ str "</p>\n"
    ++ str "            </div>\n"
    ++ str "        </div>\n"
    ++ str "        <h2>Playlists</h2>\n"
    ++ str "        <div class=\"playlist-grid\">\n"
    ++ (htmlIndexEntries playlists filenames).flatten
    ++ str "        </div>\n"
    ++ str "    </div>\n"
    ++ str "</body>\n</html>"

/-! ## Substring scanners

Executable occurrence checks used for the concrete counterexamples.  They
are written with the recursive call in tail position so that large
concrete documents evaluate inside `decide`. -/

/-- `containsSub pat s = true` iff `pat` occurs contiguously in `s`. -/
def containsSub (pat : Str) : Str → Bool
  | [] => pat.isEmpty
  | c :: cs => pat.isPrefixOf (c :: cs) || containsSub pat cs

/-- Two disjoint occurrences of a nonempty `pat`: find the first, then
scan only what lies wholly after it. -/
def containsTwice (pat : Str) : Str → Bool
  | [] => false
  | c :: cs =>
    if pat.isPrefixOf (c :: cs) then containsSub pat (cs.drop (pat.length - 1))
    else containsTwice pat cs

theorem containsSub_spec (pat s : Str) : containsSub pat s = true ↔ pat <:+: s := by
  induction s with
  | nil => simp [containsSub, List.isEmpty_iff, List.infix_nil]
  | cons c cs ih =>
    simp [containsSub, List.isPrefixOf_iff_prefix, ih, List.infix_cons_iff]

theorem containsTwice_cons (pat : Str) (c : Char) (cs : Str) :
    containsTwice pat (c :: cs) =
      if pat.isPrefixOf (c :: cs) then containsSub pat (cs.drop (pat.length - 1))
      else containsTwice pat cs := rfl

theorem containsTwice_of_decomp (pat a m b : Str) (hpat : pat ≠ []) :
    containsTwice pat (a ++ (pat ++ (m ++ (pat ++ b)))) = true := by
  induction a with
  | nil =>
    obtain ⟨p, pt, rfl⟩ : ∃ p pt, pat = p :: pt := by
      cases pat with
      | nil => exact absurd rfl hpat
      | cons p pt => exact ⟨p, pt, rfl⟩
    have hshape : ([] : Str) ++ ((p :: pt) ++ (m ++ ((p :: pt) ++ b))) =
        p :: (pt ++ (m ++ ((p :: pt) ++ b))) := by simp
    rw [hshape, containsTwice_cons]
    have hpre : (p :: pt).isPrefixOf (p :: (pt ++ (m ++ ((p :: pt) ++ b)))) = true := by
      rw [List.isPrefixOf_iff_prefix]
      exact ⟨m ++ ((p :: pt) ++ b), by simp⟩
    rw [if_pos hpre]
    have hdrop : (pt ++ (m ++ ((p :: pt) ++ b))).drop ((p :: pt).length - 1) =
        m ++ ((p :: pt) ++ b) := by
      simp [List.drop_left pt (m ++ ((p :: pt) ++ b))]
    rw [hdrop, containsSub_spec]
    exact ⟨m, b, by simp⟩
  | cons c a' ih =>
    rw [List.cons_append, containsTwice_cons]
    by_cases hp : pat.isPrefixOf (c :: (a' ++ (pat ++ (m ++ (pat ++ b))))) = true
    · rw [if_pos hp, containsSub_spec]
      have hlen : pat.length - 1 ≤ (a' ++ (pat ++ m)).length := by
        cases pat with
        | nil => exact absurd rfl hpat
        | cons p pt => simp [List.length_append]; omega
      have hsplit : (a' ++ (pat ++ (m ++ (pat ++ b)))).drop (pat.length - 1) =
          ((a' ++ (pat ++ m)).drop (pat.length - 1)) ++ (pat ++ b) := by
        have hre : a' ++ (pat ++ (m ++ (pat ++ b))) = (a' ++ (pat ++ m)) ++ (pat ++ b) := by
          simp [List.append_assoc]
        rw [hre, List.drop_append_of_le_length hlen]
      rw [hsplit]
      exact ⟨(a' ++ (pat ++ m)).drop (pat.length - 1), b, by simp⟩
    · rw [if_neg hp]
      exact ih

/-! ## Character-wise descriptions of the escaping helpers -/

/-- Character-wise concatenation map: the normal form in which the chained
`replace` calls of `escape_html` and `escape_markdown` are described. -/
def subst (f : Char → Str) : Str → Str
  | [] => []
  | c :: cs => f c ++ subst f cs

/-- What `escape_html` does to one character. -/
def escHtmlChar (c : Char) : Str :=
  if c = '&' then str "&amp;"
  else if c = '<' then str "&lt;"
  else if c = '>' then str "&gt;"
  else if c = '"' then str "&quot;"
  else if c = '\'' then str "&#39;"
  else [c]

/-- What `escape_markdown` does to one character. -/
def escMdChar (c : Char) : Str :=
  if c = '|' ∨ c = '[' ∨ c = ']' then ['\\', c] else [c]

theorem replaceChar_append (p : Char) (r a b : Str) :
    replaceChar p r (a ++ b) = replaceChar p r a ++ replaceChar p r b := by
  induction a with
  | nil => rfl
  | cons c cs ih => simp [replaceChar, ih, List.append_assoc]

theorem escape_html_append (a b : Str) :
    escape_html (a ++ b) = escape_html a ++ escape_html b := by
  simp [escape_html, replaceChar_append]

theorem escape_markdown_append (a b : Str) :
    escape_markdown (a ++ b) = escape_markdown a ++ escape_markdown b := by
  simp [escape_markdown, replaceChar_append]

theorem escape_html_single (c : Char) : escape_html [c] = escHtmlChar c := by
  by_cases h1 : c = '&'
  · subst h1; decide
  by_cases h2 : c = '<'
  · subst h2; decide
  by_cases h3 : c = '>'
  · subst h3; decide
  by_cases h4 : c = '"'
  · subst h4; decide
  by_cases h5 : c = '\''
  · subst h5; decide
  simp [escape_html, replaceChar, escHtmlChar, h1, h2, h3, h4, h5]

theorem escape_markdown_single (c : Char) : escape_markdown [c] = escMdChar c := by
  by_cases h1 : c = '|'
  · subst h1; decide
  by_cases h2 : c = '['
  · subst h2; decide
  by_cases h3 : c = ']'
  · subst h3; decide
  simp [escape_markdown, replaceChar, escMdChar, h1, h2, h3]

theorem escape_html_eq_subst (s : Str) : escape_html s = subst escHtmlChar s := by
  induction s with
  | nil => rfl
  | cons c cs ih =>
    calc escape_html (c :: cs) = escape_html ([c] ++ cs) := rfl
    _ = escape_html [c] ++ escape_html cs := escape_html_append [c] cs
    _ = escHtmlChar c ++ subst escHtmlChar cs := by rw [ih, escape_html_single]

theorem escape_markdown_eq_subst (s : Str) : escape_markdown s = subst escMdChar s := by
  induction s with
  | nil => rfl
  | cons c cs ih =>
    calc escape_markdown (c :: cs) = escape_markdown ([c] ++ cs) := rfl
    _ = escape_markdown [c] ++ escape_markdown cs := escape_markdown_append [c] cs
    _ = escMdChar c ++ subst escMdChar cs := by rw [ih, escape_markdown_single]

/-! ## Trimming lemmas -/

theorem dropWhile_head_false (p : Char → Bool) (l : Str) (c : Char) (cs : Str)
    (h : l.dropWhile p = c :: cs) : p c = false := by
  induction l with
  | nil => simp at h
  | cons a as ih =>
    by_cases hpa : p a = true
    · exact ih (by rwa [List.dropWhile_cons, if_pos hpa] at h)
    · rw [List.dropWhile_cons, if_neg hpa] at h
      cases h
      simpa using hpa

theorem dropWhile_dropWhile (p : Char → Bool) (l : Str) :
    (l.dropWhile p).dropWhile p = l.dropWhile p := by
  cases h : l.dropWhile p with
  | nil => simp
  | cons c cs =>
    have hw := dropWhile_head_false p l c cs h
    simp [List.dropWhile_cons, hw]

theorem rustTrim_decomp (l : Str) :
    ∃ a b, l = a ++ rustTrim l ++ b ∧ (∀ c ∈ a, rustIsWhitespace c = true) ∧
      (∀ c ∈ b, rustIsWhitespace c = true) := by
  refine ⟨l.takeWhile rustIsWhitespace,
    ((l.dropWhile rustIsWhitespace).reverse.takeWhile rustIsWhitespace).reverse, ?_, ?_, ?_⟩
  · conv_lhs => rw [← List.takeWhile_append_dropWhile rustIsWhitespace l]
    rw [List.append_assoc]
    congr 1
    conv_lhs => rw [← List.reverse_reverse (l.dropWhile rustIsWhitespace)]
    conv_lhs =>
      rw [← List.takeWhile_append_dropWhile rustIsWhitespace
        (l.dropWhile rustIsWhitespace).reverse]
    rw [List.reverse_append]
    rfl
  · intro c hc; exact List.mem_takeWhile_imp hc
  · intro c hc; exact List.mem_takeWhile_imp (List.mem_reverse.mp hc)

theorem mem_of_mem_rustTrim {c : Char} {l : Str} (h : c ∈ rustTrim l) : c ∈ l := by
  have h1 : c ∈ (l.dropWhile rustIsWhitespace).reverse.dropWhile rustIsWhitespace :=
    List.mem_reverse.mp h
  have h2 : c ∈ (l.dropWhile rustIsWhitespace).reverse :=
    (List.dropWhile_suffix rustIsWhitespace).sublist.mem h1
  exact (List.dropWhile_suffix rustIsWhitespace).sublist.mem (List.mem_reverse.mp h2)

theorem mem_dropWhile_of_not {c : Char} {p : Char → Bool} {l : Str}
    (hc : c ∈ l) (hw : p c = false) : c ∈ l.dropWhile p := by
  have := List.takeWhile_append_dropWhile p l
  rcases List.mem_append.mp (this ▸ hc) with h | h
  · exact absurd (List.mem_takeWhile_imp h) (by simp [hw])
  · exact h

theorem rustTrim_ne_nil {l : Str} (h : ∃ c ∈ l, rustIsWhitespace c = false) :
    rustTrim l ≠ [] := by
  obtain ⟨c, hc, hw⟩ := h
  have h1 : c ∈ l.dropWhile rustIsWhitespace := mem_dropWhile_of_not hc hw
  have h2 : c ∈ (l.dropWhile rustIsWhitespace).reverse.dropWhile rustIsWhitespace :=
    mem_dropWhile_of_not (List.mem_reverse.mpr h1) hw
  simpa [rustTrim] using List.ne_nil_of_mem (List.mem_reverse.mpr h2)

theorem rustTrim_idem (l : Str) : rustTrim (rustTrim l) = rustTrim l := by
  set w := rustIsWhitespace with hw
  set d := l.dropWhile w with hd
  set u := d.reverse.dropWhile w with hu
  show ((u.reverse.dropWhile w).reverse.dropWhile w).reverse = u.reverse
  cases hcase : u.reverse with
  | nil => simp
  | cons c cs =>
    -- `c` is the first character `dropWhile w l` keeps, hence not whitespace
    have hu_eq : u = cs.reverse ++ [c] := by
      have := congrArg List.reverse hcase
      simpa using this
    have hd_eq : d = (c :: cs) ++ (d.reverse.takeWhile w).reverse := by
      have h1 : d.reverse = d.reverse.takeWhile w ++ u :=
        (List.takeWhile_append_dropWhile w d.reverse).symm
      have := congrArg List.reverse h1
      simpa [hu_eq] using this
    have hwc : w c = false := by
      refine dropWhile_head_false w l c (cs ++ (d.reverse.takeWhile w).reverse) ?_
      rw [← hd]
      simpa using hd_eq
    have hstep1 : List.dropWhile w (c :: cs) = c :: cs := by
      simp [List.dropWhile_cons, hwc]
    rw [hstep1, ← hcase, List.reverse_reverse, hu, dropWhile_dropWhile, ← hu, hcase]

/-! ## Sanitizer lemmas -/

theorem sanitizeChar_safe (c : Char) :
    sanitizeChar c ≠ '/' ∧ sanitizeChar c ≠ '\\' ∧ sanitizeChar c ≠ ':' ∧
      sanitizeChar c ≠ '*' ∧ sanitizeChar c ≠ '?' ∧ sanitizeChar c ≠ '"' ∧
      sanitizeChar c ≠ '<' ∧ sanitizeChar c ≠ '>' ∧ sanitizeChar c ≠ '|' := by
  unfold sanitizeChar
  split
  · decide
  · rename_i h
    push_neg at h
    exact h

theorem sanitizeChar_idem (c : Char) : sanitizeChar (sanitizeChar c) = sanitizeChar c := by
  by_cases h : c = '/' ∨ c = '\\' ∨ c = ':' ∨ c = '*' ∨ c = '?' ∨ c = '"' ∨ c = '<' ∨
      c = '>' ∨ c = '|'
  · simp only [sanitizeChar, if_pos h]
    decide
  · simp only [sanitizeChar, if_neg h]

theorem mem_sanitize_filename {c : Char} {s : Str} (h : c ∈ sanitize_filename s) :
    ∃ c₀, c = sanitizeChar c₀ := by
  have h1 : c ∈ s.map sanitizeChar := mem_of_mem_rustTrim h
  obtain ⟨c₀, _, hc⟩ := List.mem_map.mp h1
  exact ⟨c₀, hc.symm⟩

/-! ## Infix plumbing -/

theorem infix_intro (pre x post : Str) : x <:+: pre ++ (x ++ post) :=
  ⟨pre, post, by simp⟩

theorem infix_flatten_of_mem {l : Str} {L : List Str} (h : l ∈ L) : l <:+: L.flatten := by
  induction L with
  | nil => simp at h
  | cons x xs ih =>
    rcases List.mem_cons.mp h with rfl | h
    · rw [List.flatten_cons]
      exact (List.prefix_append l xs.flatten).isInfix
    · rw [List.flatten_cons]
      exact (ih h).trans (List.suffix_append x xs.flatten).isInfix

theorem mdTrackRows_infix (items : List Item) (k i : Nat) (h : i < items.length) :
    mdTrackRow (k + i + 1) (items.get ⟨i, h⟩) <:+: mdTrackRows k items := by
  induction items generalizing k i with
  | nil => simp at h
  | cons item rest ih =>
    cases i with
    | zero =>
      exact (List.prefix_append (mdTrackRow (k + 1) item) (mdTrackRows (k + 1) rest)).isInfix
    | succ j =>
      have hj : j < rest.length := by simpa using h
      have h1 := ih (k + 1) j hj
      have h2 : mdTrackRows (k + 1) rest <:+: mdTrackRows k (item :: rest) :=
        (List.suffix_append (mdTrackRow (k + 1) item) (mdTrackRows (k + 1) rest)).isInfix
      have h3 := h1.trans h2
      have he : k + 1 + j + 1 = k + (j + 1) + 1 := by omega
      rw [he] at h3
      exact h3

theorem htmlTrackRows_infix (items : List Item) (k i : Nat) (h : i < items.length) :
    htmlTrackRow (k + i + 1) (items.get ⟨i, h⟩) <:+: htmlTrackRows k items := by
  induction items generalizing k i with
  | nil => simp at h
  | cons item rest ih =>
    cases i with
    | zero =>
      exact (List.prefix_append (htmlTrackRow (k + 1) item) (htmlTrackRows (k + 1) rest)).isInfix
    | succ j =>
      have hj : j < rest.length := by simpa using h
      have h1 := ih (k + 1) j hj
      have h2 : htmlTrackRows (k + 1) rest <:+: htmlTrackRows k (item :: rest) :=
        (List.suffix_append (htmlTrackRow (k + 1) item) (htmlTrackRows (k + 1) rest)).isInfix
      have h3 := h1.trans h2
      have he : k + 1 + j + 1 = k + (j + 1) + 1 := by omega
      rw [he] at h3
      exact h3

/-! ## Concrete fixtures -/

/-- A track whose URI contains `&`. -/
def ampTrack : Track := ⟨str "T", str "A", str "B", str "a&b"⟩

/-- The item holding `ampTrack`. -/
def ampItem : Item := ⟨ampTrack, str "D"⟩

/-- A one-item playlist whose track URI contains `&`. -/
def ampPlaylist : Playlist := ⟨str "P", str "L", [ampItem], 0⟩

/-- A playlist with no items. -/
def emptyPlaylist : Playlist := ⟨str "E", str "M", [], 2⟩

/-- A playlist whose name contains `]` and `|`. -/
def bracketPlaylist : Playlist := ⟨str "a]b|c", str "L", [], 3⟩

/-! ## Claims -/

/-- C3: `sanitize_filename` replaces each of the nine reserved characters
`/ \ : * ? " < > |` by a hyphen and keeps every other character (that is
the map `sanitizeChar`); it then trims exactly the leading and trailing
whitespace of the mapped string (the mapped string is whitespace, then the
result, then whitespace); consequently the result contains none of the
nine characters, and it is nonempty whenever the input has some
non-whitespace character. -/
theorem C3_sanitize_filename_spec (s : Str) :
    (∀ c, (c = '/' ∨ c = '\\' ∨ c = ':' ∨ c = '*' ∨ c = '?' ∨ c = '"' ∨ c = '<' ∨ c = '>' ∨
        c = '|') → sanitizeChar c = '-')
    ∧ (∀ c, ¬(c = '/' ∨ c = '\\' ∨ c = ':' ∨ c = '*' ∨ c = '?' ∨ c = '"' ∨ c = '<' ∨ c = '>' ∨
        c = '|') → sanitizeChar c = c)
    ∧ (∃ a b, s.map sanitizeChar = a ++ sanitize_filename s ++ b ∧
        (∀ c ∈ a, rustIsWhitespace c = true) ∧ (∀ c ∈ b, rustIsWhitespace c = true))
    ∧ (∀ c ∈ sanitize_filename s, c ≠ '/' ∧ c ≠ '\\' ∧ c ≠ ':' ∧ c ≠ '*' ∧ c ≠ '?' ∧
        c ≠ '"' ∧ c ≠ '<' ∧ c ≠ '>' ∧ c ≠ '|')
    ∧ ((∃ c ∈ s, rustIsWhitespace c = false) → sanitize_filename s ≠ []) := by
  refine ⟨?_, ?_, ?_, ?_, ?_⟩
  · intro c h
    simp [sanitizeChar, h]
  · intro c h
    simp [sanitizeChar, h]
  · exact rustTrim_decomp (s.map sanitizeChar)
  · intro c hc
    obtain ⟨c₀, rfl⟩ := mem_sanitize_filename hc
    exact sanitizeChar_safe c₀
  · rintro ⟨c, hc, hw⟩
    refine rustTrim_ne_nil ⟨sanitizeChar c, List.mem_map_of_mem _ hc, ?_⟩
    by_cases h : c = '/' ∨ c = '\\' ∨ c = ':' ∨ c = '*' ∨ c = '?' ∨ c = '"' ∨ c = '<' ∨
        c = '>' ∨ c = '|'
    · simp only [sanitizeChar, if_pos h]
      decide
    · simpa only [sanitizeChar, if_neg h] using hw

/-- C3 witness: the sanitizer on the concrete name `" a/b "`, with the
conditional clauses instantiated. -/
theorem C3_sanitize_filename_spec_witness :
    sanitize_filename (str " a/b ") = str "a-b" ∧
    (∃ c ∈ str " a/b ", rustIsWhitespace c = false) ∧
    sanitize_filename (str " a/b ") ≠ [] := by
  refine ⟨by decide, by decide, (C3_sanitize_filename_spec (str " a/b ")).2.2.2.2 (by decide)⟩

/-- C9: the filename sanitizer is idempotent: its result contains none of
the nine replaced characters and is already trimmed, so sanitizing it
again changes nothing. -/
theorem C9_sanitize_filename_idem (s : Str) :
    sanitize_filename (sanitize_filename s) = sanitize_filename s := by
  show rustTrim ((sanitize_filename s).map sanitizeChar) = sanitize_filename s
  have hmap : (sanitize_filename s).map sanitizeChar = sanitize_filename s := by
    have hfix : ∀ c ∈ sanitize_filename s, sanitizeChar c = id c := by
      intro c hc
      obtain ⟨c₀, rfl⟩ := mem_sanitize_filename hc
      exact sanitizeChar_idem c₀
    rw [List.map_congr_left hfix, List.map_id]
  rw [hmap]
  exact rustTrim_idem (s.map sanitizeChar)

/-- C6: in both formats the index shows the total playlist count (the
collection length) and the total track count (the sum of the per-playlist
item counts), rendered as decimal integers. -/
theorem C6_index_totals (playlists : List Playlist) (filenames : List Str) :
    total_tracks playlists = (playlists.map fun p => p.items.length).sum
    ∧ (str "**Total Playlists:** " ++ (natStr playlists.length ++ str "\n\n"))
        <:+: generate_index_markdown playlists filenames
    ∧ (str "**Total Tracks:** " ++ (natStr (total_tracks playlists) ++ str "\n\n"))
        <:+: generate_index_markdown playlists filenames
    ∧ (str "                <h3>Total Playlists</h3>\n" ++ (str "                <p>" ++
        (natStr playlists.length ++ str "</p>\n")))
        <:+: generate_index_html playlists filenames
    ∧ (str "                <h3>Total Tracks</h3>\n" ++ (str "                <p>" ++
        (natStr (total_tracks playlists) ++ str "</p>\n")))
        <:+: generate_index_html playlists filenames := by
  refine ⟨rfl, ?_, ?_, ?_, ?_⟩
  · have hdoc : generate_index_markdown playlists filenames =
        str "# My Spotify Playlists\n\n" ++
          ((str "**Total Playlists:** " ++ (natStr playlists.length ++ str "\n\n")) ++
            (str "**Total Tracks:** " ++ (natStr (total_tracks playlists) ++ (str "\n\n" ++
              (str "## Playlists\n\n" ++ (mdIndexEntries playlists filenames).flatten))))) := by
      simp [generate_index_markdown, List.append_assoc]
    rw [hdoc]
    exact infix_intro _ _ _
  · have hdoc : generate_index_markdown playlists filenames =
        (str "# My Spotify Playlists\n\n" ++ (str "**Total Playlists:** " ++
          (natStr playlists.length ++ str "\n\n"))) ++
          ((str "**Total Tracks:** " ++ (natStr (total_tracks playlists) ++ str "\n\n")) ++
            (str "## Playlists\n\n" ++ (mdIndexEntries playlists filenames).flatten)) := by
      simp [generate_index_markdown, List.append_assoc]
    rw [hdoc]
    exact infix_intro _ _ _
  · have hdoc : generate_index_html playlists filenames =
        (str "<!DOCTYPE html>\n<html lang=\"en\">\n<head>\n" ++ (str "    <meta charset=\"UTF-8\">\n" ++
          (str "    <meta name=\"viewport\" content=\"width=device-width, initial-scale=1.0\">\n" ++
          (str "    <title>My Spotify Playlists</title>\n" ++ (str "    <style>\n" ++
          (get_common_styles ++ (htmlIndexStyle ++ (str "    </style>\n" ++
          (str "</head>\n<body>\n" ++ (str "    <div class=\"container\">\n" ++
          (str "        <h1>My Spotify Playlists</h1>\n" ++ (str "        <div class=\"stats\">\n" ++
          str "            <div class=\"stat-card\">\n")))))))))))) ++
          ((str "                <h3>Total Playlists</h3>\n" ++ (str "                <p>" ++
            (natStr playlists.length ++ str "</p>\n"))) ++
            (str "            </div>\n" ++ (str "            <div class=\"stat-card\">\n" ++
            (str "                <h3>Total Tracks</h3>\n" ++ (str "                <p>" ++
            (natStr (total_tracks playlists) ++ (str "</p>\n" ++ (str "            </div>\n" ++
            (str "        </div>\n" ++ (str "        <h2>Playlists</h2>\n" ++
            (str "        <div class=\"playlist-grid\">\n" ++
            ((htmlIndexEntries playlists filenames).flatten ++ (str "        </div>\n" ++
            (str "    </div>\n" ++ str "</body>\n</html>")))))))))))))) := by
      simp [generate_index_html, List.append_assoc]
    rw [hdoc]
    exact infix_intro _ _ _
  · have hdoc : generate_index_html playlists filenames =
        (str "<!DOCTYPE html>\n<html lang=\"en\">\n<head>\n" ++ (str "    <meta charset=\"UTF-8\">\n" ++
          (str "    <meta name=\"viewport\" content=\"width=device-width, initial-scale=1.0\">\n" ++
          (str "    <title>My Spotify Playlists</title>\n" ++ (str "    <style>\n" ++
          (get_common_styles ++ (htmlIndexStyle ++ (str "    </style>\n" ++
          (str "</head>\n<body>\n" ++ (str "    <div class=\"container\">\n" ++
          (str "        <h1>My Spotify Playlists</h1>\n" ++ (str "        <div class=\"stats\">\n" ++
          (str "            <div class=\"stat-card\">\n" ++
          (str "                <h3>Total Playlists</h3>\n" ++ (str "                <p>" ++
          (natStr playlists.length ++ (str "</p>\n" ++ (str "            </div>\n" ++
          str "            <div class=\"stat-card\">\n")))))))))))))))))) ++
          ((str "                <h3>Total Tracks</h3>\n" ++ (str "                <p>" ++
            (natStr (total_tracks playlists) ++ str "</p>\n"))) ++
            (str "            </div>\n" ++ (str "        </div>\n" ++
            (str "        <h2>Playlists</h2>\n" ++ (str "        <div class=\"playlist-grid\">\n" ++
            ((htmlIndexEntries playlists filenames).flatten ++ (str "        </div>\n" ++
            (str "    </div>\n" ++ str "</body>\n</html>")))))))) := by
      simp [generate_index_html, List.append_assoc]
    rw [hdoc]
    exact infix_intro _ _ _

/-- C7: when the playlist and filename sequences have different lengths,
each index renderer still produces exactly `min` of the two lengths many
entries, pairing the sequences positionally; rendering is a total
function, so no error is raised. -/
theorem C7_zip_shortest (playlists : List Playlist) (filenames : List Str)
    (h : playlists.length ≠ filenames.length) :
    (mdIndexEntries playlists filenames).length = min playlists.length filenames.length
    ∧ (htmlIndexEntries playlists filenames).length = min playlists.length filenames.length
    ∧ (∀ i (h1 : i < playlists.length) (h2 : i < filenames.length),
        (mdIndexEntries playlists filenames)[i]? =
          some (mdIndexEntry playlists[i] filenames[i]))
    ∧ (∀ i (h1 : i < playlists.length) (h2 : i < filenames.length),
        (htmlIndexEntries playlists filenames)[i]? =
          some (htmlIndexEntry playlists[i] filenames[i])) := by
  refine ⟨?_, ?_, ?_, ?_⟩
  · simp [mdIndexEntries, List.length_zip]
  · simp [htmlIndexEntries, List.length_zip]
  · intro i h1 h2
    have hzl : i < (playlists.zip filenames).length := by
      simp only [List.length_zip]
      omega
    show ((playlists.zip filenames).map fun pf => mdIndexEntry pf.1 pf.2)[i]? = _
    rw [List.getElem?_map, List.getElem?_eq_getElem hzl]
    simp [List.getElem_zip]
  · intro i h1 h2
    have hzl : i < (playlists.zip filenames).length := by
      simp only [List.length_zip]
      omega
    show ((playlists.zip filenames).map fun pf => htmlIndexEntry pf.1 pf.2)[i]? = _
    rw [List.getElem?_map, List.getElem?_eq_getElem hzl]
    simp [List.getElem_zip]

/-- C7 witness: one playlist against an empty filename list yields zero
entries in both formats. -/
theorem C7_zip_shortest_witness :
    ([emptyPlaylist] : List Playlist).length ≠ ([] : List Str).length ∧
    (mdIndexEntries [emptyPlaylist] []).length =
      min ([emptyPlaylist] : List Playlist).length ([] : List Str).length := by
  exact ⟨by decide, (C7_zip_shortest [emptyPlaylist] [] (by decide)).1⟩

set_option maxRecDepth 40000 in
set_option maxHeartbeats 2000000 in
/-- C10: the Markdown index inserts each zipped playlist's name and its
filename into the bullet `- [**name**](filename) - ` completely raw — in
particular a name containing `]` and `|` appears verbatim, and its
`escape_markdown` form does not appear. -/
theorem C10_index_md_unescaped :
    (∀ (playlists : List Playlist) (filenames : List Str) (p : Playlist) (f : Str),
        (p, f) ∈ playlists.zip filenames →
        (str "- [**" ++ (p.name ++ (str "**](" ++ (f ++ str ") - "))))
          <:+: generate_index_markdown playlists filenames)
    ∧ str "a]b|c" <:+: generate_index_markdown [bracketPlaylist] [str "f.md"]
    ∧ ¬ (escape_markdown (str "a]b|c") <:+:
        generate_index_markdown [bracketPlaylist] [str "f.md"]) := by
  refine ⟨?_, (containsSub_spec _ _).mp (by decide),
    fun hinf => absurd ((containsSub_spec _ _).mpr hinf) (by decide)⟩
  intro playlists filenames p f hmem
  have h1 : mdIndexEntry p f ∈ mdIndexEntries playlists filenames :=
    List.mem_map_of_mem _ hmem
  have h2 : mdIndexEntry p f <:+: (mdIndexEntries playlists filenames).flatten :=
    infix_flatten_of_mem h1
  have h3 : (mdIndexEntries playlists filenames).flatten <:+:
      generate_index_markdown playlists filenames := by
    have hdoc : generate_index_markdown playlists filenames =
        (str "# My Spotify Playlists\n\n" ++ (str "**Total Playlists:** " ++
          (natStr playlists.length ++ (str "\n\n" ++ (str "**Total Tracks:** " ++
          (natStr (total_tracks playlists) ++ (str "\n\n" ++ str "## Playlists\n\n"))))))) ++
          ((mdIndexEntries playlists filenames).flatten ++ []) := by
      simp [generate_index_markdown, List.append_assoc]
    rw [hdoc]
    exact infix_intro _ _ _
  have h5 : (str "- [**" ++ (p.name ++ (str "**](" ++ (f ++ str ") - ")))) <+:
      mdIndexEntry p f :=
    ⟨natStr p.items.length ++ (str " tracks, " ++ (intStr p.number_of_followers ++
      str " followers\n")), by simp [mdIndexEntry, List.append_assoc]⟩
  exact h5.isInfix.trans (h2.trans h3)

/-- C5: each Markdown track row backslash-escapes `|`, `[`, `]` in the
track, artist and album names (`escape_markdown` is the character map
`escMdChar`, which prefixes exactly those three characters with `\`); the
link text is the escaped track name, the link target the raw
`track_uri`, and the added date is inserted verbatim; the full row for
the item at 0-based position `i` appears in the rendered document with
row number `i + 1`. -/
theorem C5_markdown_rows (p : Playlist) (h : p.items ≠ []) :
    (∀ s, escape_markdown s = subst escMdChar s)
    ∧ (∀ c, (c = '|' ∨ c = '[' ∨ c = ']') → escMdChar c = ['\\', c])
    ∧ (∀ c, ¬(c = '|' ∨ c = '[' ∨ c = ']') → escMdChar c = [c])
    ∧ (∀ i (hi : i < p.items.length),
        (str "| " ++ (natStr (i + 1) ++ (str " | [" ++
          (escape_markdown (p.items.get ⟨i, hi⟩).track.track_name ++
          (str "](" ++ ((p.items.get ⟨i, hi⟩).track.track_uri ++ (str ") | " ++
          (escape_markdown (p.items.get ⟨i, hi⟩).track.artist_name ++ (str " | " ++
          (escape_markdown (p.items.get ⟨i, hi⟩).track.album_name ++ (str " | " ++
          ((p.items.get ⟨i, hi⟩).added_date ++ str " |\n"))))))))))))
          <:+: generate_markdown p) := by
  refine ⟨escape_markdown_eq_subst, ?_, ?_, ?_⟩
  · intro c hc
    simp [escMdChar, hc]
  · intro c hc
    simp [escMdChar, hc]
  · intro i hi
    have hrow := mdTrackRows_infix p.items 0 i hi
    rw [Nat.zero_add] at hrow
    have hempty : p.items.isEmpty = false := by
      cases hl : p.items with
      | nil => exact absurd hl h
      | cons a as => rfl
    have hsec : mdTracksSection p.items =
        (str "## Tracks\n\n" ++ (str "| # | Track Name | Artist | Album | Added Date |\n" ++
          str "|---|------------|--------|-------|------------|\n")) ++
          (mdTrackRows 0 p.items ++ []) := by
      simp only [mdTracksSection, hempty, Bool.false_eq_true, if_false]
      simp [List.append_assoc]
    have h2 : mdTrackRows 0 p.items <:+: mdTracksSection p.items := by
      rw [hsec]
      exact infix_intro _ _ _
    have h3 : mdTracksSection p.items <:+: generate_markdown p := by
      have hdoc : generate_markdown p =
          mdPlaylistHead p ++ (mdTracksSection p.items ++ mdPlaylistFoot) := by
        simp [generate_markdown]
      rw [hdoc]
      exact infix_intro _ _ _
    simpa only [mdTrackRow, List.append_assoc] using hrow.trans (h2.trans h3)

/-- C5 witness: the row of the one item of `ampPlaylist`, rendered with
row number 1, is part of the rendered Markdown document. -/
theorem C5_markdown_rows_witness :
    ampPlaylist.items ≠ [] ∧ mdTrackRow 1 ampItem <:+: generate_markdown ampPlaylist := by
  refine ⟨by decide, ?_⟩
  have h0 := (C5_markdown_rows ampPlaylist (by decide)).2.2.2 0 (by decide)
  simpa only [mdTrackRow, List.append_assoc, ampPlaylist, ampItem, List.get_cons_zero]
    using h0

/-- C8: a playlist with zero items renders, in both formats, a document
that is exactly the head (title, navigation link and the three metadata
fields, the track total shown as `0`) followed by the footer — the track
table section contributes nothing — while the title and all three
metadata fields are still present. -/
theorem C8_empty_playlist (p : Playlist) (h : p.items = []) :
    generate_markdown p = mdPlaylistHead p ++ mdPlaylistFoot
    ∧ generate_html p = htmlPlaylistHead p ++ htmlPlaylistFoot
    ∧ (str "# " ++ (p.name ++ str "\n\n")) <+: generate_markdown p
    ∧ (str "- **Last Modified:** " ++ (p.last_modified_date ++ str "\n"))
        <:+: generate_markdown p
    ∧ (str "- **Followers:** " ++ (intStr p.number_of_followers ++ str "\n"))
        <:+: generate_markdown p
    ∧ (str "- **Total Tracks:** " ++ (natStr 0 ++ str "\n\n")) <:+: generate_markdown p
    ∧ (str "    <title>" ++ (escape_html p.name ++ str "</title>\n")) <:+: generate_html p
    ∧ (str "            <p><strong>Last Modified:</strong> " ++
        (escape_html p.last_modified_date ++ str "</p>\n")) <:+: generate_html p
    ∧ (str "            <p><strong>Followers:</strong> " ++
        (intStr p.number_of_followers ++ str "</p>\n")) <:+: generate_html p
    ∧ (str "            <p><strong>Total Tracks:</strong> " ++ (natStr 0 ++ str "</p>\n"))
        <:+: generate_html p := by
  refine ⟨?_, ?_, ?_, ?_, ?_, ?_, ?_, ?_, ?_, ?_⟩
  · simp [generate_markdown, mdTracksSection, h]
  · simp [generate_html, htmlTracksSection, h]
  ·
    exact ⟨(str "[← Back to Index](index.md)\n\n" ++ (str "## Playlist Information\n\n" ++ (str "- **Last Modified:** " ++ (p.last_modified_date ++ (str "\n" ++ (str "- **Followers:** " ++ (intStr p.number_of_followers ++ (str "\n" ++ (str "- **Total Tracks:** " ++ (natStr p.items.length ++ (str "\n\n" ++ (mdTracksSection p.items ++ mdPlaylistFoot)))))))))))),
      by simp [generate_markdown, mdPlaylistHead, List.append_assoc]⟩
  ·
    have hdoc : generate_markdown p =
        ((str "# " ++ (p.name ++ (str "\n\n" ++ (str "[← Back to Index](index.md)\n\n" ++ str "## Playlist Information\n\n")))) ++ ((str "- **Last Modified:** " ++ (p.last_modified_date ++ str "\n")) ++ (str "- **Followers:** " ++ (intStr p.number_of_followers ++ (str "\n" ++ (str "- **Total Tracks:** " ++ (natStr p.items.length ++ (str "\n\n" ++ (mdTracksSection p.items ++ mdPlaylistFoot))))))))) := by
      simp [generate_markdown, mdPlaylistHead, List.append_assoc]
    rw [hdoc]
    exact infix_intro _ _ _
  ·
    have hdoc : generate_markdown p =
        ((str "# " ++ (p.name ++ (str "\n\n" ++ (str "[← Back to Index](index.md)\n\n" ++ (str "## Playlist Information\n\n" ++ (str "- **Last Modified:** " ++ (p.last_modified_date ++ str "\n"))))))) ++ ((str "- **Followers:** " ++ (intStr p.number_of_followers ++ str "\n")) ++ (str "- **Total Tracks:** " ++ (natStr p.items.length ++ (str "\n\n" ++ (mdTracksSection p.items ++ mdPlaylistFoot)))))) := by
      simp [generate_markdown, mdPlaylistHead, List.append_assoc]
    rw [hdoc]
    exact infix_intro _ _ _
  ·
    have hdoc : generate_markdown p =
        ((str "# " ++ (p.name ++ (str "\n\n" ++ (str "[← Back to Index](index.md)\n\n" ++ (str "## Playlist Information\n\n" ++ (str "- **Last Modified:** " ++ (p.last_modified_date ++ (str "\n" ++ (str "- **Followers:** " ++ (intStr p.number_of_followers ++ str "\n")))))))))) ++ ((str "- **Total Tracks:** " ++ (natStr 0 ++ str "\n\n")) ++ (mdTracksSection p.items ++ mdPlaylistFoot))) := by
      simp [generate_markdown, mdPlaylistHead, h, List.append_assoc]
    rw [hdoc]
    exact infix_intro _ _ _
  ·
    have hdoc : generate_html p =
        ((str "<!DOCTYPE html>\n<html lang=\"en\">\n<head>\n" ++ (str "    <meta charset=\"UTF-8\">\n" ++ str "    <meta name=\"viewport\" content=\"width=device-width, initial-scale=1.0\">\n")) ++ ((str "    <title>" ++ (escape_html p.name ++ str "</title>\n")) ++ (str "    <style>\n" ++ (get_common_styles ++ (htmlPlaylistStyle ++ (str "    </style>\n" ++ (str "</head>\n<body>\n" ++ (str "    <div class=\"container\">\n" ++ (str "        <a href=\"index.html\" class=\"nav-link\">← Back to Index</a>\n" ++ (str "        <h1>" ++ (escape_html p.name ++ (str "</h1>\n" ++ (str "        <div class=\"metadata\">\n" ++ (str "            <p><strong>Last Modified:</strong> " ++ (escape_html p.last_modified_date ++ (str "</p>\n" ++ (str "            <p><strong>Followers:</strong> " ++ (intStr p.number_of_followers ++ (str "</p>\n" ++ (str "            <p><strong>Total Tracks:</strong> " ++ (natStr p.items.length ++ (str "</p>\n" ++ (str "        </div>\n" ++ (htmlTracksSection p.items ++ htmlPlaylistFoot)))))))))))))))))))))))) := by
      simp [generate_html, htmlPlaylistHead, List.append_assoc]
    rw [hdoc]
    exact infix_intro _ _ _
  ·
    have hdoc : generate_html p =
        ((str "<!DOCTYPE html>\n<html lang=\"en\">\n<head>\n" ++ (str "    <meta charset=\"UTF-8\">\n" ++ (str "    <meta name=\"viewport\" content=\"width=device-width, initial-scale=1.0\">\n" ++ (str "    <title>" ++ (escape_html p.name ++ (str "</title>\n" ++ (str "    <style>\n" ++ (get_common_styles ++ (htmlPlaylistStyle ++ (str "    </style>\n" ++ (str "</head>\n<body>\n" ++ (str "    <div class=\"container\">\n" ++ (str "        <a href=\"index.html\" class=\"nav-link\">← Back to Index</a>\n" ++ (str "        <h1>" ++ (escape_html p.name ++ (str "</h1>\n" ++ str "        <div class=\"metadata\">\n")))))))))))))))) ++ ((str "            <p><strong>Last Modified:</strong> " ++ (escape_html p.last_modified_date ++ str "</p>\n")) ++ (str "            <p><strong>Followers:</strong> " ++ (intStr p.number_of_followers ++ (str "</p>\n" ++ (str "            <p><strong>Total Tracks:</strong> " ++ (natStr p.items.length ++ (str "</p>\n" ++ (str "        </div>\n" ++ (htmlTracksSection p.items ++ htmlPlaylistFoot)))))))))) := by
      simp [generate_html, htmlPlaylistHead, List.append_assoc]
    rw [hdoc]
    exact infix_intro _ _ _
  ·
    have hdoc : generate_html p =
        ((str "<!DOCTYPE html>\n<html lang=\"en\">\n<head>\n" ++ (str "    <meta charset=\"UTF-8\">\n" ++ (str "    <meta name=\"viewport\" content=\"width=device-width, initial-scale=1.0\">\n" ++ (str "    <title>" ++ (escape_html p.name ++ (str "</title>\n" ++ (str "    <style>\n" ++ (get_common_styles ++ (htmlPlaylistStyle ++ (str "    </style>\n" ++ (str "</head>\n<body>\n" ++ (str "    <div class=\"container\">\n" ++ (str "        <a href=\"index.html\" class=\"nav-link\">← Back to Index</a>\n" ++ (str "        <h1>" ++ (escape_html p.name ++ (str "</h1>\n" ++ (str "        <div class=\"metadata\">\n" ++ (str "            <p><strong>Last Modified:</strong> " ++ (escape_html p.last_modified_date ++ str "</p>\n"))))))))))))))))))) ++ ((str "            <p><strong>Followers:</strong> " ++ (intStr p.number_of_followers ++ str "</p>\n")) ++ (str "            <p><strong>Total Tracks:</strong> " ++ (natStr p.items.length ++ (str "</p>\n" ++ (str "        </div>\n" ++ (htmlTracksSection p.items ++ htmlPlaylistFoot))))))) := by
      simp [generate_html, htmlPlaylistHead, List.append_assoc]
    rw [hdoc]
    exact infix_intro _ _ _
  ·
    have hdoc : generate_html p =
        ((str "<!DOCTYPE html>\n<html lang=\"en\">\n<head>\n" ++ (str "    <meta charset=\"UTF-8\">\n" ++ (str "    <meta name=\"viewport\" content=\"width=device-width, initial-scale=1.0\">\n" ++ (str "    <title>" ++ (escape_html p.name ++ (str "</title>\n" ++ (str "    <style>\n" ++ (get_common_styles ++ (htmlPlaylistStyle ++ (str "    </style>\n" ++ (str "</head>\n<body>\n" ++ (str "    <div class=\"container\">\n" ++ (str "        <a href=\"index.html\" class=\"nav-link\">← Back to Index</a>\n" ++ (str "        <h1>" ++ (escape_html p.name ++ (str "</h1>\n" ++ (str "        <div class=\"metadata\">\n" ++ (str "            <p><strong>Last Modified:</strong> " ++ (escape_html p.last_modified_date ++ (str "</p>\n" ++ (str "            <p><strong>Followers:</strong> " ++ (intStr p.number_of_followers ++ str "</p>\n")))))))))))))))))))))) ++ ((str "            <p><strong>Total Tracks:</strong> " ++ (natStr 0 ++ str "</p>\n")) ++ (str "        </div>\n" ++ (htmlTracksSection p.items ++ htmlPlaylistFoot)))) := by
      simp [generate_html, htmlPlaylistHead, h, List.append_assoc]
    rw [hdoc]
    exact infix_intro _ _ _

/-- C8 witness: the zero-item `emptyPlaylist`, with the hypothesis
discharged by computation. -/
theorem C8_empty_playlist_witness :
    emptyPlaylist.items = [] ∧
    generate_markdown emptyPlaylist = mdPlaylistHead emptyPlaylist ++ mdPlaylistFoot := by
  exact ⟨rfl, (C8_empty_playlist emptyPlaylist rfl).1⟩


theorem htmlTrackRow_assoc (idx : Nat) (item : Item) :
    htmlTrackRow idx item =
      (str "                <tr>\n" ++ (str "                    <td class=\"track-number\">" ++ (natStr idx ++ (str "</td>\n" ++ (str "                    <td><a href=\"" ++ (escape_html item.track.track_uri ++ (str "\">" ++ (escape_html item.track.track_name ++ (str "</a></td>\n" ++ (str "                    <td>" ++ (escape_html item.track.artist_name ++ (str "</td>\n" ++ (str "                    <td>" ++ (escape_html item.track.album_name ++ (str "</td>\n" ++ (str "                    <td>" ++ (escape_html item.added_date ++ (str "</td>\n" ++ str "                </tr>\n")))))))))))))))))) := by
  simp [htmlTrackRow, List.append_assoc]

set_option maxHeartbeats 1600000 in
/-- C4: `escape_html` is exactly the character-wise map `escHtmlChar`
(`&` to `&amp;`, `<` to `&lt;`, `>` to `&gt;`, `"` to `&quot;`, `'` to
`&#39;`, everything else unchanged) — because the `&` substitution runs
first, no substitution output is re-escaped; and every user-supplied text
value inserted into HTML output passes through it: the playlist name
(title and heading), the last-modified value, every field of every track
row, and the filename and name of every index card. -/
theorem C4_html_escaping :
    (∀ s, escape_html s = subst escHtmlChar s)
    ∧ escHtmlChar '&' = str "&amp;" ∧ escHtmlChar '<' = str "&lt;"
    ∧ escHtmlChar '>' = str "&gt;" ∧ escHtmlChar '"' = str "&quot;"
    ∧ escHtmlChar '\'' = str "&#39;"
    ∧ (∀ c, c ≠ '&' → c ≠ '<' → c ≠ '>' → c ≠ '"' → c ≠ '\'' → escHtmlChar c = [c])
    ∧ (∀ p : Playlist,
        (str "    <title>" ++ (escape_html p.name ++ str "</title>\n")) <:+: generate_html p
        ∧ (str "        <h1>" ++ (escape_html p.name ++ str "</h1>\n")) <:+: generate_html p
        ∧ (str "            <p><strong>Last Modified:</strong> " ++
            (escape_html p.last_modified_date ++ str "</p>\n")) <:+: generate_html p
        ∧ ∀ i (hi : i < p.items.length),
            (str "                <tr>\n" ++ (str "                    <td class=\"track-number\">" ++ (natStr (i + 1) ++ (str "</td>\n" ++ (str "                    <td><a href=\"" ++ (escape_html (p.items.get ⟨i, hi⟩).track.track_uri ++ (str "\">" ++ (escape_html (p.items.get ⟨i, hi⟩).track.track_name ++ (str "</a></td>\n" ++ (str "                    <td>" ++ (escape_html (p.items.get ⟨i, hi⟩).track.artist_name ++ (str "</td>\n" ++ (str "                    <td>" ++ (escape_html (p.items.get ⟨i, hi⟩).track.album_name ++ (str "</td>\n" ++ (str "                    <td>" ++ (escape_html (p.items.get ⟨i, hi⟩).added_date ++ (str "</td>\n" ++ str "                </tr>\n"))))))))))))))))))
              <:+: generate_html p)
    ∧ (∀ (playlists : List Playlist) (filenames : List Str) (p : Playlist) (f : Str),
        (p, f) ∈ playlists.zip filenames →
        (str "                <h3><a href=\"" ++ (escape_html f ++ (str "\">" ++ (escape_html p.name ++ str "</a></h3>\n"))))
          <:+: generate_index_html playlists filenames) := by
  refine ⟨escape_html_eq_subst, rfl, rfl, rfl, rfl, rfl, ?_, ?_, ?_⟩
  · intro c h1 h2 h3 h4 h5
    simp [escHtmlChar, h1, h2, h3, h4, h5]
  · intro p
    refine ⟨?_, ?_, ?_, ?_⟩
    · have hdoc : generate_html p =
          ((str "<!DOCTYPE html>\n<html lang=\"en\">\n<head>\n" ++ (str "    <meta charset=\"UTF-8\">\n" ++ str "    <meta name=\"viewport\" content=\"width=device-width, initial-scale=1.0\">\n")) ++ ((str "    <title>" ++ (escape_html p.name ++ str "</title>\n")) ++ (str "    <style>\n" ++ (get_common_styles ++ (htmlPlaylistStyle ++ (str "    </style>\n" ++ (str "</head>\n<body>\n" ++ (str "    <div class=\"container\">\n" ++ (str "        <a href=\"index.html\" class=\"nav-link\">← Back to Index</a>\n" ++ (str "        <h1>" ++ (escape_html p.name ++ (str "</h1>\n" ++ (str "        <div class=\"metadata\">\n" ++ (str "            <p><strong>Last Modified:</strong> " ++ (escape_html p.last_modified_date ++ (str "</p>\n" ++ (str "            <p><strong>Followers:</strong> " ++ (intStr p.number_of_followers ++ (str "</p>\n" ++ (str "            <p><strong>Total Tracks:</strong> " ++ (natStr p.items.length ++ (str "</p>\n" ++ (str "        </div>\n" ++ (htmlTracksSection p.items ++ htmlPlaylistFoot)))))))))))))))))))))))) := by
        simp [generate_html, htmlPlaylistHead, List.append_assoc]
      rw [hdoc]
      exact infix_intro _ _ _
    · have hdoc : generate_html p =
          ((str "<!DOCTYPE html>\n<html lang=\"en\">\n<head>\n" ++ (str "    <meta charset=\"UTF-8\">\n" ++ (str "    <meta name=\"viewport\" content=\"width=device-width, initial-scale=1.0\">\n" ++ (str "    <title>" ++ (escape_html p.name ++ (str "</title>\n" ++ (str "    <style>\n" ++ (get_common_styles ++ (htmlPlaylistStyle ++ (str "    </style>\n" ++ (str "</head>\n<body>\n" ++ (str "    <div class=\"container\">\n" ++ str "        <a href=\"index.html\" class=\"nav-link\">← Back to Index</a>\n")))))))))))) ++ ((str "        <h1>" ++ (escape_html p.name ++ str "</h1>\n")) ++ (str "        <div class=\"metadata\">\n" ++ (str "            <p><strong>Last Modified:</strong> " ++ (escape_html p.last_modified_date ++ (str "</p>\n" ++ (str "            <p><strong>Followers:</strong> " ++ (intStr p.number_of_followers ++ (str "</p>\n" ++ (str "            <p><strong>Total Tracks:</strong> " ++ (natStr p.items.length ++ (str "</p>\n" ++ (str "        </div>\n" ++ (htmlTracksSection p.items ++ htmlPlaylistFoot)))))))))))))) := by
        simp [generate_html, htmlPlaylistHead, List.append_assoc]
      rw [hdoc]
      exact infix_intro _ _ _
    · have hdoc : generate_html p =
          ((str "<!DOCTYPE html>\n<html lang=\"en\">\n<head>\n" ++ (str "    <meta charset=\"UTF-8\">\n" ++ (str "    <meta name=\"viewport\" content=\"width=device-width, initial-scale=1.0\">\n" ++ (str "    <title>" ++ (escape_html p.name ++ (str "</title>\n" ++ (str "    <style>\n" ++ (get_common_styles ++ (htmlPlaylistStyle ++ (str "    </style>\n" ++ (str "</head>\n<body>\n" ++ (str "    <div class=\"container\">\n" ++ (str "        <a href=\"index.html\" class=\"nav-link\">← Back to Index</a>\n" ++ (str "        <h1>" ++ (escape_html p.name ++ (str "</h1>\n" ++ str "        <div class=\"metadata\">\n")))))))))))))))) ++ ((str "            <p><strong>Last Modified:</strong> " ++ (escape_html p.last_modified_date ++ str "</p>\n")) ++ (str "            <p><strong>Followers:</strong> " ++ (intStr p.number_of_followers ++ (str "</p>\n" ++ (str "            <p><strong>Total Tracks:</strong> " ++ (natStr p.items.length ++ (str "</p>\n" ++ (str "        </div>\n" ++ (htmlTracksSection p.items ++ htmlPlaylistFoot)))))))))) := by
        simp [generate_html, htmlPlaylistHead, List.append_assoc]
      rw [hdoc]
      exact infix_intro _ _ _
    · intro i hi
      have hrow := htmlTrackRows_infix p.items 0 i hi
      rw [Nat.zero_add] at hrow
      have hempty : p.items.isEmpty = false := by
        cases hl : p.items with
        | nil => rw [hl] at hi; simp at hi
        | cons a as => rfl
      have hsec : htmlTracksSection p.items =
          htmlTableOpen ++ (htmlTrackRows 0 p.items ++ (htmlTableClose ++ [])) := by
        simp only [htmlTracksSection, hempty, Bool.false_eq_true, if_false]
        simp [List.append_assoc]
      have h2 : htmlTrackRows 0 p.items <:+: htmlTracksSection p.items := by
        rw [hsec]
        exact infix_intro _ _ _
      have h3 : htmlTracksSection p.items <:+: generate_html p := by
        have hdoc : generate_html p =
            htmlPlaylistHead p ++ (htmlTracksSection p.items ++ htmlPlaylistFoot) := by
          simp [generate_html, List.append_assoc]
        rw [hdoc]
        exact infix_intro _ _ _
      rw [← htmlTrackRow_assoc]
      exact hrow.trans (h2.trans h3)
  · intro playlists filenames p f hmem
    have h1 : htmlIndexEntry p f ∈ htmlIndexEntries playlists filenames :=
      List.mem_map.mpr ⟨(p, f), hmem, rfl⟩
    have h2 : htmlIndexEntry p f <:+: (htmlIndexEntries playlists filenames).flatten :=
      infix_flatten_of_mem h1
    have h3 : (htmlIndexEntries playlists filenames).flatten <:+:
        generate_index_html playlists filenames := by
      have hdoc : generate_index_html playlists filenames =
          ((str "<!DOCTYPE html>\n<html lang=\"en\">\n<head>\n" ++ (str "    <meta charset=\"UTF-8\">\n" ++ (str "    <meta name=\"viewport\" content=\"width=device-width, initial-scale=1.0\">\n" ++ (str "    <title>My Spotify Playlists</title>\n" ++ (str "    <style>\n" ++ (get_common_styles ++ (htmlIndexStyle ++ (str "    </style>\n" ++ (str "</head>\n<body>\n" ++ (str "    <div class=\"container\">\n" ++ (str "        <h1>My Spotify Playlists</h1>\n" ++ (str "        <div class=\"stats\">\n" ++ (str "            <div class=\"stat-card\">\n" ++ (str "                <h3>Total Playlists</h3>\n" ++ (str "                <p>" ++ (natStr playlists.length ++ (str "</p>\n" ++ (str "            </div>\n" ++ (str "            <div class=\"stat-card\">\n" ++ (str "                <h3>Total Tracks</h3>\n" ++ (str "                <p>" ++ (natStr (total_tracks playlists) ++ (str "</p>\n" ++ (str "            </div>\n" ++ (str "        </div>\n" ++ (str "        <h2>Playlists</h2>\n" ++ str "        <div class=\"playlist-grid\">\n")))))))))))))))))))))))))) ++ ((htmlIndexEntries playlists filenames).flatten ++ (str "        </div>\n" ++ (str "    </div>\n" ++ str "</body>\n</html>")))) := by
        simp [generate_index_html, List.append_assoc]
      rw [hdoc]
      exact infix_intro _ _ _
    have h4 : (str "                <h3><a href=\"" ++ (escape_html f ++ (str "\">" ++ (escape_html p.name ++ str "</a></h3>\n"))))
        <:+: htmlIndexEntry p f := by
      have hentry : htmlIndexEntry p f =
          str "            <div class=\"playlist-card\">\n" ++
            ((str "                <h3><a href=\"" ++ (escape_html f ++ (str "\">" ++ (escape_html p.name ++ str "</a></h3>\n")))) ++ (str "                <div class=\"playlist-meta\">\n" ++ (str "                    " ++ (natStr p.items.length ++ (str " tracks<br>\n" ++ (str "                    " ++ (intStr p.number_of_followers ++ (str " followers\n" ++ (str "                </div>\n" ++ str "            </div>\n"))))))))) := by
        simp [htmlIndexEntry, List.append_assoc]
      rw [hentry]
      exact infix_intro _ _ _
    exact h4.trans (h2.trans h3)

set_option maxRecDepth 2000000 in
set_option maxHeartbeats 16000000 in
/-- C1 counterexample: for `ampPlaylist`, whose single track has
`trackUri = "a&b"`, the raw URI does not appear as an `href` value
anywhere in the rendered document — only the escaped form `a&amp;b`
does, because the code passes the URI through `escape_html`
(src/main.rs:281). -/
theorem C1_raw_href_counterexample :
    ampItem ∈ ampPlaylist.items
    ∧ ampItem.track.track_uri = str "a&b"
    ∧ ¬ (str "href=\"a&b\"" <:+: generate_html ampPlaylist)
    ∧ (str "href=\"a&amp;b\"" <:+: generate_html ampPlaylist) := by
  refine ⟨List.mem_singleton.mpr rfl, rfl, ?_, ?_⟩
  · exact fun h => absurd ((containsSub_spec _ _).mpr h) (by decide)
  · exact (containsSub_spec _ _).mp (by decide)

/-- C1 (amended): the HTML per-playlist renderer passes the track URI
through `escape_html` before inserting it into the `href` attribute of
the track-name link: for every playlist and item, the anchor cell with
the escaped URI as the `href` value and the escaped track name as the
link text appears in the rendered document. -/
theorem C1_href_escaped (p : Playlist) (i : Nat) (hi : i < p.items.length) :
    (str "                    <td><a href=\"" ++ (escape_html (p.items.get ⟨i, hi⟩).track.track_uri ++ (str "\">" ++ (escape_html (p.items.get ⟨i, hi⟩).track.track_name ++ str "</a></td>\n"))))
      <:+: generate_html p := by
  have hrow := htmlTrackRows_infix p.items 0 i hi
  rw [Nat.zero_add] at hrow
  have hempty : p.items.isEmpty = false := by
    cases hl : p.items with
    | nil => rw [hl] at hi; simp at hi
    | cons a as => rfl
  have hsec : htmlTracksSection p.items =
      htmlTableOpen ++ (htmlTrackRows 0 p.items ++ (htmlTableClose ++ [])) := by
    simp only [htmlTracksSection, hempty, Bool.false_eq_true, if_false]
    simp [List.append_assoc]
  have h2 : htmlTrackRows 0 p.items <:+: htmlTracksSection p.items := by
    rw [hsec]
    exact infix_intro _ _ _
  have h3 : htmlTracksSection p.items <:+: generate_html p := by
    have hdoc : generate_html p =
        htmlPlaylistHead p ++ (htmlTracksSection p.items ++ htmlPlaylistFoot) := by
      simp [generate_html, List.append_assoc]
    rw [hdoc]
    exact infix_intro _ _ _
  have h4 : (str "                    <td><a href=\"" ++ (escape_html (p.items.get ⟨i, hi⟩).track.track_uri ++ (str "\">" ++ (escape_html (p.items.get ⟨i, hi⟩).track.track_name ++ str "</a></td>\n"))))
      <:+: htmlTrackRow (i + 1) (p.items.get ⟨i, hi⟩) := by
    have hdec : htmlTrackRow (i + 1) (p.items.get ⟨i, hi⟩) =
        (str "                <tr>\n" ++ (str "                    <td class=\"track-number\">" ++ (natStr (i + 1) ++ str "</td>\n"))) ++
          ((str "                    <td><a href=\"" ++ (escape_html (p.items.get ⟨i, hi⟩).track.track_uri ++ (str "\">" ++ (escape_html (p.items.get ⟨i, hi⟩).track.track_name ++ str "</a></td>\n")))) ++
            (str "                    <td>" ++ (escape_html (p.items.get ⟨i, hi⟩).track.artist_name ++ (str "</td>\n" ++ (str "                    <td>" ++ (escape_html (p.items.get ⟨i, hi⟩).track.album_name ++ (str "</td>\n" ++ (str "                    <td>" ++ (escape_html (p.items.get ⟨i, hi⟩).added_date ++ (str "</td>\n" ++ str "                </tr>\n")))))))))) := by
      rw [htmlTrackRow_assoc]
      simp [List.append_assoc]
    rw [hdec]
    exact infix_intro _ _ _
  exact h4.trans (hrow.trans (h2.trans h3))

/-- C1 witness: the anchor cell of `ampPlaylist`'s only item, with the
escaped URI `a&amp;b` as the `href` value. -/
theorem C1_href_escaped_witness :
    (0 : Nat) < ampPlaylist.items.length ∧
    (str "                    <td><a href=\"" ++ (escape_html (str "a&b") ++ (str "\">" ++
      (escape_html (str "T") ++ str "</a></td>\n"))))
      <:+: generate_html ampPlaylist := by
  exact ⟨by decide, C1_href_escaped ampPlaylist 0 (by decide)⟩

set_option maxRecDepth 2000000 in
set_option maxHeartbeats 16000000 in
/-- C2 counterexample: the rendered HTML document for `ampPlaylist` does
not contain two disjoint occurrences of `index.html`: the only one is the
navigation link at the top, so no second link back to the index follows
the trailing back-to-top anchor (the document ends with the anchor and
the closing tags, see `htmlPlaylistFoot`). -/
theorem C2_no_second_index_link_counterexample :
    ¬ ∃ a m b, generate_html ampPlaylist =
      a ++ (str "index.html" ++ (m ++ (str "index.html" ++ b))) := by
  rintro ⟨a, m, b, hdecomp⟩
  have h := containsTwice_of_decomp (str "index.html") a m b (by decide)
  rw [← hdecomp] at h
  exact absurd h (by decide)

/-- C2 (amended): the Markdown document ends with the back-to-top line
followed by a second link to `index.md` (in addition to the navigation
link at the top); the HTML document has its navigation link to
`index.html` at the top and ends with the floating back-to-top anchor
followed only by the closing tags — it has no second index link. -/
theorem C2_trailing_links (p : Playlist) :
    str "[← Back to Index](index.md)\n\n" <:+: generate_markdown p
    ∧ (str "\n[↑ Back to Top](#)\n\n" ++ str "[← Back to Index](index.md)\n")
        <:+ generate_markdown p
    ∧ str "        <a href=\"index.html\" class=\"nav-link\">← Back to Index</a>\n"
        <:+: generate_html p
    ∧ (str "    <a href=\"#\" class=\"back-to-top\">↑ Top</a>\n" ++ str "</body>\n</html>")
        <:+ generate_html p := by
  refine ⟨?_, ?_, ?_, ?_⟩
  · have hdoc : generate_markdown p =
        (str "# " ++ (p.name ++ str "\n\n")) ++
          (str "[← Back to Index](index.md)\n\n" ++
            (str "## Playlist Information\n\n" ++ (str "- **Last Modified:** " ++ (p.last_modified_date ++ (str "\n" ++ (str "- **Followers:** " ++ (intStr p.number_of_followers ++ (str "\n" ++ (str "- **Total Tracks:** " ++ (natStr p.items.length ++ (str "\n\n" ++ (mdTracksSection p.items ++ mdPlaylistFoot)))))))))))) := by
      simp [generate_markdown, mdPlaylistHead, List.append_assoc]
    rw [hdoc]
    exact infix_intro _ _ _
  · exact List.suffix_append (mdPlaylistHead p ++ mdTracksSection p.items)
      (str "\n[↑ Back to Top](#)\n\n" ++ str "[← Back to Index](index.md)\n")
  · have hdoc : generate_html p =
        (str "<!DOCTYPE html>\n<html lang=\"en\">\n<head>\n" ++ (str "    <meta charset=\"UTF-8\">\n" ++ (str "    <meta name=\"viewport\" content=\"width=device-width, initial-scale=1.0\">\n" ++ (str "    <title>" ++ (escape_html p.name ++ (str "</title>\n" ++ (str "    <style>\n" ++ (get_common_styles ++ (htmlPlaylistStyle ++ (str "    </style>\n" ++ (str "</head>\n<body>\n" ++ str "    <div class=\"container\">\n"))))))))))) ++
          (str "        <a href=\"index.html\" class=\"nav-link\">← Back to Index</a>\n" ++
            (str "        <h1>" ++ (escape_html p.name ++ (str "</h1>\n" ++ (str "        <div class=\"metadata\">\n" ++ (str "            <p><strong>Last Modified:</strong> " ++ (escape_html p.last_modified_date ++ (str "</p>\n" ++ (str "            <p><strong>Followers:</strong> " ++ (intStr p.number_of_followers ++ (str "</p>\n" ++ (str "            <p><strong>Total Tracks:</strong> " ++ (natStr p.items.length ++ (str "</p>\n" ++ (str "        </div>\n" ++ (htmlTracksSection p.items ++ htmlPlaylistFoot)))))))))))))))) := by
      simp [generate_html, htmlPlaylistHead, List.append_assoc]
    rw [hdoc]
    exact infix_intro _ _ _
  · have hdoc : generate_html p =
        (htmlPlaylistHead p ++ (htmlTracksSection p.items ++ str "    </div>\n")) ++
          (str "    <a href=\"#\" class=\"back-to-top\">↑ Top</a>\n" ++ str "</body>\n</html>") := by
      simp [generate_html, htmlPlaylistFoot, List.append_assoc]
    rw [hdoc]
    exact List.suffix_append _ _
